import Mathlib

/-!
Shallow embedding of the chart axis-application module
(`applyChartTimeseriesXAxis`, `applyChartQuantitativeXAxis`,
`applyChartOrdinalXAxis`, `applyChartYAxis` and their helpers) and of the
`NewQueryOptions` container's `setAggregation` / `setAggregationField`
methods, together with theorems about the specified behaviour.

JavaScript numbers are modelled by `JSNum`: rationals plus `NaN` and the two
infinities, with the IEEE-style propagation rules JS arithmetic uses (the
negative-zero distinction, which none of the modelled code observes, is
dropped).  JavaScript values appearing in settings bags are modelled by
`JSVal`.  Stateful methods on the chart handle are modelled by explicit state
passing on a `Chart` record; `throw` is modelled by `Except` with a
`JSError` value distinguishing thrown strings from `Error` objects and from
the `TypeError`s raised by property access on `undefined`.
-/

/-- JavaScript numbers: NaN, positive or negative infinity, or a finite value (modelled as a
rational; the code under study performs no operation that distinguishes
doubles from rationals other than the rules encoded here). -/
inductive JSNum where
  | nan : JSNum
  | inf : Bool → JSNum    -- `inf true` is +Infinity, `inf false` is -Infinity
  | num : ℚ → JSNum
deriving DecidableEq, Repr

namespace JSNum

/-- JS multiplication. -/
def jmul : JSNum → JSNum → JSNum
  | nan, _ => nan
  | _, nan => nan
  | inf s, inf t => inf (s == t)
  | inf s, num q => if q = 0 then nan else inf (s == decide (0 < q))
  | num q, inf s => if q = 0 then nan else inf (s == decide (0 < q))
  | num a, num b => num (a * b)

/-- JS division (`x / 0` is a signed infinity for finite nonzero `x`,
`0 / 0` is NaN; `ℚ` has no negative zero, so division by zero behaves as
division by `+0`). -/
def jdiv : JSNum → JSNum → JSNum
  | nan, _ => nan
  | _, nan => nan
  | inf _, inf _ => nan
  | inf s, num q => if q = 0 then inf s else inf (s == decide (0 < q))
  | num _, inf _ => num 0
  | num a, num b =>
    if b = 0 then (if a = 0 then nan else inf (decide (0 < a))) else num (a / b)

/-- JS negation. -/
def jneg : JSNum → JSNum
  | nan => nan
  | inf s => inf (!s)
  | num q => num (-q)

/-- JS addition. -/
def jadd : JSNum → JSNum → JSNum
  | nan, _ => nan
  | _, nan => nan
  | inf s, inf t => if s = t then inf s else nan
  | inf s, num _ => inf s
  | num _, inf s => inf s
  | num a, num b => num (a + b)

/-- JS subtraction (`a - b` agrees with `a + (-b)`). -/
def jsub (a b : JSNum) : JSNum := jadd a (jneg b)

/-- JS strict `<` on numbers (`false` whenever an operand is NaN). -/
def jlt : JSNum → JSNum → Bool
  | nan, _ => false
  | _, nan => false
  | inf s, inf t => !s && t
  | inf s, num _ => !s
  | num _, inf t => t
  | num a, num b => decide (a < b)

/-- JS strict `>` (the spec evaluates `a > b` as the less-than relation on
the swapped operands, with NaN again yielding `false`). -/
def jgt (a b : JSNum) : Bool := jlt b a

/-- `Math.floor`. -/
def jfloor : JSNum → JSNum
  | nan => nan
  | inf s => inf s
  | num q => num ⌊q⌋

/-- `Math.round` (round half towards +infinity, i.e. `floor (x + 1/2)`;
the `-0` corner cases do not arise on the non-negative inputs the module
feeds it, and are unobservable in this model anyway). -/
def jround (x : JSNum) : JSNum := jfloor (jadd x (num (1/2)))

end JSNum

/-- JavaScript values as they occur in the settings bag and in the axis
domains: `undefined`, `null`, booleans, numbers and strings (the modelled
code stores no objects in these positions). -/
inductive JSVal where
  | undef : JSVal
  | nullv : JSVal
  | bool : Bool → JSVal
  | num : JSNum → JSVal
  | str : String → JSVal
deriving DecidableEq, Repr

namespace JSVal

/-- JS truthiness. -/
def truthy : JSVal → Bool
  | undef => false
  | nullv => false
  | bool b => b
  | num n => match n with
    | .nan => false
    | .num q => decide (q ≠ 0)
    | .inf _ => true
  | str s => decide (s ≠ "")

/-- JS `a || b`. -/
def jsOr (a b : JSVal) : JSVal := if a.truthy then a else b

end JSVal

/-- The state d3's `axis.ticks()` getter can report: a plain number, an
arguments array of numbers, or the `[rangeFn, count]` pair stored by the
timeseries code's `axis.ticks(tickInterval.rangeFn, tickInterval.count)`
call (represented by the interval descriptor that supplied it). -/
inductive TicksVal where
  | single : JSNum → TicksVal
  | array : List JSNum → TicksVal
  | rangeTicks : String → ℚ → TicksVal    -- interval name and count
deriving DecidableEq, Repr

/-- `getNumTicks` from the source: `Array.isArray(ticks) ? ticks[0] : ticks`.
On an empty array (and on the `[rangeFn, count]` shape, whose first element
is a function) the JS value obtained coerces to NaN in every numeric
comparison the module performs, so it is represented by NaN here. -/
def getNumTicksVal : TicksVal → JSNum
  | .single n => n
  | .array l => l.headD .nan
  | .rangeTicks _ _ => .nan

/-- `adjustYAxisTicksIfNeeded` acting on the ticks state of the axis
(`MIN_PIXELS_PER_TICK = 32` and `numTicks = getNumTicks(axis)` are written
inline). -/
def adjustYAxisTicks (ticks : TicksVal) (axisHeightPixels : JSNum) : TicksVal :=
  if (axisHeightPixels.jdiv (getNumTicksVal ticks)).jlt (.num 32) then
    .single ((axisHeightPixels.jdiv (.num 32)).jfloor)
  else ticks

/-- `averageStringLengthOfValues` from the source.  The x values are
modelled by their `String(value)` images; for an empty list the JS code
divides `0 / 0`, giving NaN, and `Math.round` of NaN is NaN. -/
def averageStringLengthOfValues (values : List String) : JSNum :=
  -- MAX_VALUES_TO_MEASURE = 100; totalLength is the summed length of the
  -- measured values
  ((JSNum.num ((values.take 100).foldl (fun acc v => acc + v.length) 0 : ℕ)).jdiv
    (JSNum.num ((values.take 100).length : ℕ))).jround

/-- `adjustXAxisTicksIfNeeded` acting on the axis ticks state. -/
def adjustXAxisTicks (ticks : TicksVal) (chartWidthPixels : JSNum)
    (xValues : List String) : TicksVal :=
  -- APPROXIMATE_AVERAGE_CHAR_WIDTH_PIXELS = 8;
  -- tickAverageWidthPixels = averageStringLengthOfValues(xValues) * 8;
  -- maxTicks = floor(chartWidthPixels / tickAverageWidthPixels)
  if (getNumTicksVal ticks).jgt
      ((chartWidthPixels.jdiv ((averageStringLengthOfValues xValues).jmul (.num 8))).jfloor) then
    .single ((chartWidthPixels.jdiv ((averageStringLengthOfValues xValues).jmul (.num 8))).jfloor)
  else ticks

/-- A dimension/metric column as the module reads it: `getFriendlyName`
consumes it opaquely, `unit` and `timezone` are the fields accessed
directly (`null`/absent modelled as `none`; a `timezone` that is the empty
string is falsy and filtered out like an absent one). -/
structure Column where
  name : String
  unit : Option String
  timezone : Option String
deriving DecidableEq, Repr

/-- The slice of a single series' `data` the module touches: `cols[0]` and
`cols[1]` (the code reads them only on series it has established to be
well-formed, so they are typed as present). -/
structure SeriesData where
  col0 : Column
  col1 : Column
deriving DecidableEq, Repr

/-- One entry of the `series` argument. -/
structure SingleSeries where
  data : SeriesData
deriving DecidableEq, Repr

/-- An `{interval, count}` descriptor (`xInterval`, `tickInterval`,
`dataInterval`); the `rangeFn` field some descriptors carry is only ever
forwarded to `axis.ticks` and is determined by `interval`/`count`, so it is
not modelled separately. -/
structure TimeInterval where
  interval : String
  count : ℚ
deriving DecidableEq, Repr

/-- Environment of functions the module calls but whose code is outside
this fragment.

* `getFriendlyName` (repository code in `./utils`, not in the fragment) and
  `datasetContainsNoResults` (repository code in `metabase/lib/dataset`,
  not in the fragment) are modelled as opaque total functions, which is all
  the call sites rely on.
* `computeTimeseriesTicksInterval` (repository code in `./timeseries`, not
  in the fragment) is modelled as an opaque total function from the domain,
  a tick interval and the chart width to a tick interval.
* `strToNum` models JavaScript's ToNumber coercion on strings, used when a
  relational operator meets a string-valued setting.
* `unitLen tz u` models moment arithmetic linearly: adding one unit `u`
  advances a timestamp by `unitLen u` milliseconds (an idealisation of
  calendar arithmetic: months and DST days are uniform here).
* `anchorOf tz u` models `moment().tz(tz).startOf("s").startOf(u)`, the
  current instant truncated to unit `u` in timezone `tz`, as a timestamp. -/
structure Env where
  getFriendlyName : Column → String
  datasetContainsNoResults : SeriesData → Bool
  computeTimeseriesTicksInterval : ℚ × ℚ → TimeInterval → JSNum → TimeInterval
  strToNum : String → JSNum
  unitLen : String → ℚ
  anchorOf : Option String → String → ℚ

/-- JavaScript's ToNumber coercion, as applied by relational operators. -/
def JSVal.toNumber (env : Env) : JSVal → JSNum
  | .undef => .nan
  | .nullv => .num 0
  | .bool b => .num (if b then 1 else 0)
  | .num n => n
  | .str s => env.strToNum s

/-- What `axis.tickFormat` holds: unset, the empty-string format, the
`formatValue`-based axis formatter (a closure; represented by its captured
column and compact flag), or the normalized-percent formatter. -/
inductive TickFormat where
  | default : TickFormat
  | emptyStr : TickFormat
  | axisFormatter : Column → Bool → TickFormat
  | normalizedPercent : TickFormat
deriving DecidableEq, Repr

/-- A d3 axis as the module mutates it. -/
structure Axis where
  ticksVal : TicksVal
  tickFormatVal : TickFormat
deriving DecidableEq, Repr

def Axis.setTicks (a : Axis) (n : JSNum) : Axis := { a with ticksVal := .single n }

def Axis.setTicksRange (a : Axis) (ti : TimeInterval) : Axis :=
  { a with ticksVal := .rangeTicks ti.interval ti.count }

def Axis.setTickFormat (a : Axis) (f : TickFormat) : Axis := { a with tickFormatVal := f }

/-- `getNumTicks` on an axis object. -/
def getNumTicks (a : Axis) : JSNum := getNumTicksVal a.ticksVal

/-- `adjustYAxisTicksIfNeeded` on an axis object. -/
def adjustYAxisTicksIfNeeded (a : Axis) (axisHeightPixels : JSNum) : Axis :=
  { a with ticksVal := adjustYAxisTicks a.ticksVal axisHeightPixels }

/-- `adjustXAxisTicksIfNeeded` on an axis object. -/
def adjustXAxisTicksIfNeeded (a : Axis) (chartWidthPixels : JSNum)
    (xValues : List String) : Axis :=
  { a with ticksVal := adjustXAxisTicks a.ticksVal chartWidthPixels xValues }

/-- The kind of d3 scale the module constructs:
`d3.scale.pow().exponent(e)`, `d3.scale.log().base(Math.E)` or
`d3.scale.linear()`. -/
inductive ScaleKind where
  | pow : ℚ → ScaleKind
  | logBaseE : ScaleKind
  | linear : ScaleKind
deriving DecidableEq, Repr

/-- A quantitative d3 scale with its domain array (d3's default domain is
`[0, 1]`). -/
structure DScale where
  kind : ScaleKind
  domain : List JSVal
deriving DecidableEq, Repr

def d3DefaultDomain : List JSVal := [.num (.num 0), .num (.num 1)]

/-- What `chart.x(...)` can hold after the module runs: a quantitative d3
scale, an ordinal scale over the x values, or the moment-timezone based
custom timeseries scale (timezone, the captured `tickInterval`, and the
domain in milliseconds). -/
inductive XScaleVal where
  | dscale : DScale → XScaleVal
  | ordinal : List String → XScaleVal
  | tseries : Option String → TimeInterval → ℚ × ℚ → XScaleVal
deriving DecidableEq, Repr

/-- What `chart.xUnits(...)` can hold: the timeseries counting closure
(capturing `dataInterval`), `dc.units.fp.precision(xInterval)`, or
`dc.units.ordinal`. -/
inductive XUnits where
  | timeseriesUnits : TimeInterval → XUnits
  | fpPrecision : JSNum → XUnits
  | ordinalUnits : XUnits
deriving DecidableEq, Repr

/-- The chart handle: the settings bag and dimensions it is read through,
and the axis configuration the module mutates in place. -/
structure Chart where
  settings : String → JSVal
  width : JSNum
  height : JSNum
  xAxisObj : Axis
  yAxisObj : Axis
  rightYAxisObj : Axis
  xAxisLabelVal : Option (JSVal × ℚ)
  yAxisLabelVal : Option (JSVal × ℚ)
  rightYAxisLabelVal : Option (JSVal × ℚ)
  vertGridLines : Option JSVal
  horizGridLines : Option Bool
  xScaleVal : Option XScaleVal
  yScaleVal : Option DScale
  rightYScaleVal : Option DScale
  xUnitsVal : Option XUnits
  elasticYVal : Option Bool

/-- Values thrown by the modelled code: plain strings (`throw "..."`),
`Error` objects (`throw new Error("...")`), and the `TypeError` JavaScript
itself raises on property access through `undefined`. -/
inductive JSError where
  | thrownString : String → JSError
  | errorObj : String → JSError
  | typeError : String → JSError
deriving DecidableEq, Repr

def X_LABEL_PADDING : ℚ := 10
def Y_LABEL_PADDING : ℚ := 22

/-- underscore's `_.uniq`: keep the first occurrence of each element. -/
def jsUniq : List String → List String
  | [] => []
  | x :: xs => x :: jsUniq (xs.filter (fun y => y ≠ x))
termination_by l => l.length
decreasing_by
  simp only [List.length_cons]
  exact Nat.lt_succ_of_le (List.length_filter_le _ _)

namespace Chart

def modifyXAxis (c : Chart) (f : Axis → Axis) : Chart := { c with xAxisObj := f c.xAxisObj }

def modifyYAxis (c : Chart) (isRight : Bool) (f : Axis → Axis) : Chart :=
  if isRight then { c with rightYAxisObj := f c.rightYAxisObj }
  else { c with yAxisObj := f c.yAxisObj }

def setYAxisLabel (c : Chart) (isRight : Bool) (v : JSVal) : Chart :=
  if isRight then { c with rightYAxisLabelVal := some (v, Y_LABEL_PADDING) }
  else { c with yAxisLabelVal := some (v, Y_LABEL_PADDING) }

def setYScale (c : Chart) (isRight : Bool) (s : DScale) : Chart :=
  if isRight then { c with rightYScaleVal := some s } else { c with yScaleVal := some s }

end Chart

/-- The error JavaScript raises when `_.find` returns `undefined` and the
code goes on to read `firstSeries.data`. -/
def undefinedDataError : JSError :=
  .typeError "Cannot read property of undefined"

/-- The label and axis blocks of `applyChartTimeseriesXAxis` (everything
between the timezone computation and the domain padding), returning the
mutated chart together with the final `tickInterval` captured by the
scale's `ticks` closure. -/
def tsChartPart (env : Env) (settings : String → JSVal) (chart : Chart)
    (dimensionColumn : Column) (xDomain : ℚ × ℚ)
    (dataInterval : TimeInterval) : Chart × TimeInterval :=
  let tickInterval := dataInterval
  let chart :=
    if (settings "graph.x_axis.labels_enabled").truthy then
      let lbl := (settings "graph.x_axis.title_text").jsOr
        (.str (env.getFriendlyName dimensionColumn))
      { chart with xAxisLabelVal := some (lbl, X_LABEL_PADDING) }
    else chart
  if (settings "graph.x_axis.axis_enabled").truthy then
    let chart := { chart with vertGridLines := some (settings "graph.x_axis.gridLine_enabled") }
    let dimensionColumn :=
      if dimensionColumn.unit = none then
        { dimensionColumn with unit := some dataInterval.interval }
      else dimensionColumn
    -- special handling for weeks
    let weekPart : Column × TimeInterval :=
      if dataInterval.interval = "week" then
        let newTickInterval :=
          env.computeTimeseriesTicksInterval xDomain tickInterval chart.width
        if newTickInterval.interval ≠ tickInterval.interval ∨
            newTickInterval.count ≠ tickInterval.count then
          ({ dimensionColumn with unit := some "month" },
           { interval := "month", count := 1 })
        else (dimensionColumn, tickInterval)
      else (dimensionColumn, tickInterval)
    let dimensionColumn := weekPart.1
    let tickInterval := weekPart.2
    let chart := chart.modifyXAxis (fun a => a.setTickFormat
      (.axisFormatter dimensionColumn
        (settings "graph.x_axis.axis_enabled" = .str "compact")))
    let tickInterval :=
      env.computeTimeseriesTicksInterval xDomain tickInterval chart.width
    let chart := chart.modifyXAxis (fun a => a.setTicksRange tickInterval)
    (chart, tickInterval)
  else
    (chart.modifyXAxis (fun a => a.setTicks (.num 0)), tickInterval)

/-- `applyChartTimeseriesXAxis`.  The caller-visible mutable state is the
chart and the `xDomain` array (which the function overwrites with the
padded endpoints); both are returned.  Timestamps are in milliseconds. -/
def applyChartTimeseriesXAxis (env : Env) (chart : Chart)
    (series : List SingleSeries) (xValues : List String) (xDomain : ℚ × ℚ)
    (xInterval : TimeInterval) : Except JSError (Chart × (ℚ × ℚ)) :=
  match series.find? (fun s => ! env.datasetContainsNoResults s.data) with
  | none => .error undefinedDataError
  | some firstSeries =>
    let settings := chart.settings
    let dimensionColumn := firstSeries.data.col0
    let timezones :=
      jsUniq (((series.map (fun s => s.data.col0.timezone)).filterMap id).filter
        (fun tz => tz ≠ ""))
    let timezone := timezones.head?
    let dataInterval := xInterval
    let axisPart := tsChartPart env settings chart dimensionColumn xDomain dataInterval
    -- pad the domain slightly to prevent clipping (this assigns into the
    -- caller's xDomain array)
    let pad := dataInterval.count * 0.75 * env.unitLen dataInterval.interval
    let xDomain := (xDomain.1 - pad, xDomain.2 + pad)
    .ok ({ axisPart.1 with
            xScaleVal := some (.tseries timezone axisPart.2 xDomain),
            xUnitsVal := some (.timeseriesUnits dataInterval) }, xDomain)

/-- The `s.ticks` method of the moment-timezone based scale constructed in
`applyChartTimeseriesXAxis`: `every = anchor.every(count, interval)` with
`every.count(m) = (m - anchor) / (count * unitLen interval)` and
`every.nth(k) = anchor + k * count * unitLen interval` under the linear
time model; the code takes `_.range(ceil(every.count(d0)),
floor(every.count(d1)) + 1).map(every.nth)` and the empty list when the
start index exceeds the end index. -/
def timeseriesTicks (ti : TimeInterval) (u : ℚ) (anchor : ℚ)
    (domain : ℚ × ℚ) : List ℚ :=
  -- step of one tick: `count` units of `interval`, i.e. ti.count * u ms;
  -- startindex = ceil(every.count(domain[0])),
  -- endindex = floor(every.count(domain[1]))
  if ⌈(domain.1 - anchor) / (ti.count * u)⌉ > ⌊(domain.2 - anchor) / (ti.count * u)⌋ then []
  else (List.range (⌊(domain.2 - anchor) / (ti.count * u)⌋ + 1 -
      ⌈(domain.1 - anchor) / (ti.count * u)⌉).toNat).map
    (fun (i : ℕ) => anchor +
      ((⌈(domain.1 - anchor) / (ti.count * u)⌉ : ℚ) + (i : ℚ)) * (ti.count * u))

/-- `ticks()` of a stored x scale, where it is modelled (`none` for the d3
built-in scales, whose tick generation is third-party library internals). -/
def XScaleVal.ticksOf (env : Env) : XScaleVal → Option (List ℚ)
  | .tseries tz ti dom =>
    some (timeseriesTicks ti (env.unitLen ti.interval) (env.anchorOf tz ti.interval) dom)
  | _ => none

/-- The negated guard of both log-scale validations:
`!((a < 0 && b < 0) || (a > 0 && b > 0))` — `true` when the endpoint pair
does not keep to one strict side of zero (so an endpoint equal to 0, or a
NaN endpoint, makes it `true`). -/
def logCrossCheckFails (a b : JSNum) : Bool :=
  !((a.jlt (.num 0) && b.jlt (.num 0)) || (a.jgt (.num 0) && b.jgt (.num 0)))

/-- The scale-selection block of `applyChartQuantitativeXAxis`, including
the log-scale validation. -/
def quantScale (settings : String → JSVal) (xDomain : JSNum × JSNum) :
    Except JSError DScale :=
  if settings "graph.x_axis.scale" = .str "pow" then
    .ok { kind := .pow (1/2), domain := d3DefaultDomain }
  else if settings "graph.x_axis.scale" = .str "log" then
    if logCrossCheckFails xDomain.1 xDomain.2 then
      .error (.thrownString "X-axis must not cross 0 when using log scale.")
    else
      .ok { kind := .logBaseE, domain := d3DefaultDomain }
  else
    .ok { kind := .linear, domain := d3DefaultDomain }

/-- The label and axis blocks of `applyChartQuantitativeXAxis`. -/
def quantChartPart (env : Env) (settings : String → JSVal) (chart : Chart)
    (dimensionColumn : Column) (xValues : List String) : Chart :=
  let chart :=
    if (settings "graph.x_axis.labels_enabled").truthy then
      let lbl := (settings "graph.x_axis.title_text").jsOr
        (.str (env.getFriendlyName dimensionColumn))
      { chart with xAxisLabelVal := some (lbl, X_LABEL_PADDING) }
    else chart
  if (settings "graph.x_axis.axis_enabled").truthy then
    let chart := { chart with vertGridLines := some (settings "graph.x_axis.gridLine_enabled") }
    let chart := chart.modifyXAxis (fun a =>
      adjustXAxisTicksIfNeeded a chart.width xValues)
    chart.modifyXAxis (fun a => a.setTickFormat
      (.axisFormatter dimensionColumn
        (settings "graph.x_axis.axis_enabled" = .str "compact")))
  else
    (chart.modifyXAxis (fun a => a.setTicks (.num 0))).modifyXAxis
      (fun a => a.setTickFormat .emptyStr)

/-- `applyChartQuantitativeXAxis`.  The caller's `xDomain` array is only
rebound locally in the source (`xDomain = [...]`), never assigned into, so
the returned array state equals the argument. -/
def applyChartQuantitativeXAxis (env : Env) (chart : Chart)
    (series : List SingleSeries) (xValues : List String)
    (xDomain : JSNum × JSNum) (xInterval : JSNum) :
    Except JSError (Chart × (JSNum × JSNum)) :=
  match series.find? (fun s => ! env.datasetContainsNoResults s.data) with
  | none => .error undefinedDataError
  | some firstSeries =>
    let settings := chart.settings
    let chart := quantChartPart env settings chart firstSeries.data.col0 xValues
    match quantScale settings xDomain with
    | .error e => .error e
    | .ok scale =>
      -- pad the domain slightly to prevent clipping (local rebinding)
      let padded := (xDomain.1.jsub (xInterval.jmul (.num 0.75)),
                     xDomain.2.jadd (xInterval.jmul (.num 0.75)))
      .ok ({ chart with
              xScaleVal := some (.dscale
                { scale with domain := [.num padded.1, .num padded.2] }),
              xUnitsVal := some (.fpPrecision xInterval) }, xDomain)

/-- The label and axis blocks of `applyChartOrdinalXAxis`. -/
def ordChartPart (env : Env) (settings : String → JSVal) (chart : Chart)
    (dimensionColumn : Column) (xValues : List String) : Chart :=
  let chart :=
    if (settings "graph.x_axis.labels_enabled").truthy then
      let lbl := (settings "graph.x_axis.title_text").jsOr
        (.str (env.getFriendlyName dimensionColumn))
      { chart with xAxisLabelVal := some (lbl, X_LABEL_PADDING) }
    else chart
  if (settings "graph.x_axis.axis_enabled").truthy then
    let chart := { chart with vertGridLines := some (settings "graph.x_axis.gridLine_enabled") }
    let chart := chart.modifyXAxis (fun a => a.setTicks (.num xValues.length))
    let chart := chart.modifyXAxis (fun a =>
      adjustXAxisTicksIfNeeded a chart.width xValues)
    chart.modifyXAxis (fun a => a.setTickFormat
      (.axisFormatter dimensionColumn
        (settings "graph.x_axis.labels_enabled" = .str "compact")))
  else
    (chart.modifyXAxis (fun a => a.setTicks (.num 0))).modifyXAxis
      (fun a => a.setTickFormat .emptyStr)

/-- `applyChartOrdinalXAxis`. -/
def applyChartOrdinalXAxis (env : Env) (chart : Chart)
    (series : List SingleSeries) (xValues : List String) :
    Except JSError Chart :=
  match series.find? (fun s => ! env.datasetContainsNoResults s.data) with
  | none => .error undefinedDataError
  | some firstSeries =>
    let settings := chart.settings
    let chart := ordChartPart env settings chart firstSeries.data.col0 xValues
    .ok { chart with
            xScaleVal := some (.ordinal xValues),
            xUnitsVal := some .ordinalUnits }

/-- The label and axis blocks of `applyChartYAxis`. -/
def yChartPart (env : Env) (settings : String → JSVal) (chart : Chart)
    (series : List SingleSeries) (isRight : Bool) : Chart :=
  let chart :=
    if (settings "graph.y_axis.labels_enabled").truthy then
      if (settings "graph.y_axis.title_text").truthy then
        chart.setYAxisLabel isRight (settings "graph.y_axis.title_text")
      else
        -- only use the column name if all in the series are the same
        let labels := jsUniq (series.map (fun s => env.getFriendlyName s.data.col1))
        if labels.length = 1 then
          chart.setYAxisLabel isRight (.str (labels.headD ""))
        else chart
    else chart
  if (settings "graph.y_axis.axis_enabled").truthy then
    let chart :=
      if settings "stackable.stack_type" = .str "normalized" then
        chart.modifyYAxis isRight (fun a => a.setTickFormat .normalizedPercent)
      else chart
    let chart := { chart with horizGridLines := some true }
    chart.modifyYAxis isRight (fun a => adjustYAxisTicksIfNeeded a chart.height)
  else
    chart.modifyYAxis isRight (fun a => a.setTicks (.num 0))

/-- `applyChartYAxis`.  The source reads every setting through
`axis.setting(name)`, i.e. `chart.settings["graph.y_axis." + name]` for
both axes (right-axis settings are a TODO in the source); the concatenated
keys are written out literally here. -/
def applyChartYAxis (env : Env) (chart : Chart) (series : List SingleSeries)
    (yExtent : JSNum × JSNum) (axisName : String) : Except JSError Chart :=
  let isRight := axisName == "right"
  let settings := chart.settings
  let chart := yChartPart env settings chart series isRight
  let scale : DScale :=
    if settings "graph.y_axis.scale" = .str "pow" then
      { kind := .pow (1/2), domain := d3DefaultDomain }
    else if settings "graph.y_axis.scale" = .str "log" then
      { kind := .logBaseE, domain := d3DefaultDomain }
    else { kind := .linear, domain := d3DefaultDomain }
  if (settings "graph.y_axis.auto_range").truthy then
    -- elasticY not compatible with log scale
    if settings "graph.y_axis.scale" ≠ .str "log" then
      .ok ({ chart with elasticYVal := some true }.setYScale isRight scale)
    else
      if logCrossCheckFails yExtent.1 yExtent.2 then
        .error (.thrownString "Y-axis must not cross 0 when using log scale.")
      else
        .ok (chart.setYScale isRight
          { scale with domain := [.num yExtent.1, .num yExtent.2] })
  else
    if settings "graph.y_axis.scale" = .str "log" &&
       logCrossCheckFails ((settings "graph.y_axis.min").toNumber env)
         ((settings "graph.y_axis.max").toNumber env) then
      .error (.thrownString "Y-axis must not cross 0 when using log scale.")
    else
      .ok (chart.setYScale isRight
        { scale with domain := [settings "graph.y_axis.min", settings "graph.y_axis.max"] })

/-! ### `NewQueryOptions` container methods

The container's own code is in the fragment; the `StructuredQuery` /
`AggregationOption` library it manipulates is not, and is abstracted by an
interface of opaque operations (`QueryOps`), which is all the component
relies on.  A method's observable behaviour is the list of continuation
calls (`updateQuery` / `onComplete`) it performs, or the error it throws
(in which case no call is performed). -/

/-- The slice of `AggregationOption` the component reads:
`option.hasFields()` (tested for truthiness) and
`option.toAggregation().clause`. -/
structure AggregationOption (Clause : Type) where
  hasFields : JSVal
  clause : Clause

/-- The slice of a `Field` the component reads. -/
structure JSField (FieldId : Type) where
  id : FieldId

/-- Opaque query-library operations used by the component. -/
structure QueryOps (Query Clause Agg FieldId : Type) where
  addAggregation : Query → Clause → Query
  aggregationsWrapped : Query → List Agg
  updateAggregation : Query → ℕ → Clause → Query
  /-- `aggregation.setField(fieldId).clause` -/
  setFieldClause : Agg → FieldId → Clause

/-- A continuation invocation made by a method. -/
inductive QueryCall (Query : Type) where
  | updateQuery : Query → QueryCall Query
  | onComplete : Query → QueryCall Query

/-- `NewQueryOptions.setAggregation`: build the extended query, then hand
it to exactly one of the two continuations depending on
`option.hasFields()`. -/
def setAggregation {Query Clause Agg FieldId : Type}
    (ops : QueryOps Query Clause Agg FieldId) (query : Query)
    (option : AggregationOption Clause) : List (QueryCall Query) :=
  let updatedQuery := ops.addAggregation query option.clause
  if option.hasFields.truthy then [.updateQuery updatedQuery]
  else [.onComplete updatedQuery]

/-- `NewQueryOptions.setAggregationField`.  `aggregationsWrapped()[0]` is
`undefined` exactly when the list is empty (its elements are wrapper
objects, hence truthy), in which case `!aggregation` holds and the method
throws `new Error(...)` before invoking any continuation. -/
def setAggregationField {Query Clause Agg FieldId : Type}
    (ops : QueryOps Query Clause Agg FieldId) (query : Query)
    (field : JSField FieldId) : Except JSError (List (QueryCall Query)) :=
  match (ops.aggregationsWrapped query).head? with
  | none => .error (.errorObj "Trying to set the field of a non-existing aggregation")
  | some aggregation =>
    .ok [.onComplete (ops.updateAggregation query 0 (ops.setFieldClause aggregation field.id))]

/-! ### Result projections

Used to state properties of the chart produced by a call without spelling
out the whole chart value. -/

/-- Whether an `Except` result is a normal return. -/
def exceptOk {ε α : Type} : Except ε α → Bool
  | .ok _ => true
  | .error _ => false

/-- The chart of a normal return, for functions returning the chart and the
final state of a caller array. -/
def okChartP {α : Type} : Except JSError (Chart × α) → Option Chart
  | .ok (c, _) => some c
  | .error _ => none

/-- The final caller-array state of a normal return. -/
def okArray {α : Type} : Except JSError (Chart × α) → Option α
  | .ok (_, xd) => some xd
  | .error _ => none

/-- The chart of a normal return. -/
def okChart : Except JSError Chart → Option Chart
  | .ok c => some c
  | .error _ => none

/-- The domain array of the chart's x scale, as a list of JS values
(timestamps of the timeseries scale are numbers in milliseconds). -/
def xScaleDomainVals : XScaleVal → List JSVal
  | .dscale s => s.domain
  | .ordinal d => d.map .str
  | .tseries _ _ (a, b) => [.num (.num a), .num (.num b)]

/-- The x-scale domain stored in a chart, if an x scale was stored. -/
def chartXDomain (c : Chart) : Option (List JSVal) :=
  c.xScaleVal.map xScaleDomainVals

/-- One settings entry as seen through a result chart. -/
def resultSetting {α : Type} (r : Except JSError (Chart × α)) (name : String) :
    Option JSVal :=
  (okChartP r).map (fun c => c.settings name)

/-- One settings entry as seen through a result chart (chart-only result). -/
def resultSettingC (r : Except JSError Chart) (name : String) : Option JSVal :=
  (okChart r).map (fun c => c.settings name)

/-- The x-scale domain reached through a chart-and-array result. -/
def resultXScaleDomain {α : Type} (r : Except JSError (Chart × α)) :
    Option (List JSVal) :=
  (okChartP r).bind chartXDomain

/-- The chart dimensions reached through a chart-and-array result. -/
def resultDims {α : Type} (r : Except JSError (Chart × α)) :
    Option (JSNum × JSNum) :=
  (okChartP r).map (fun c => (c.width, c.height))

/-- The chart dimensions reached through a chart-only result. -/
def resultDimsC (r : Except JSError Chart) : Option (JSNum × JSNum) :=
  (okChart r).map (fun c => (c.width, c.height))

/-! ### Concrete fixtures used by witnesses and counterexamples -/

def colFix : Column := { name := "x", unit := none, timezone := none }

def seriesDataFix : SeriesData := { col0 := colFix, col1 := colFix }

def seriesFix : List SingleSeries := [{ data := seriesDataFix }]

/-- A concrete environment: uniform 86400000 ms units (one day), anchor at
the epoch, every dataset nonempty, ToNumber of any string NaN. -/
def envFix : Env where
  getFriendlyName := fun c => c.name
  datasetContainsNoResults := fun _ => false
  computeTimeseriesTicksInterval := fun _ ti _ => ti
  strToNum := fun _ => .nan
  unitLen := fun _ => 86400000
  anchorOf := fun _ _ => 0

def axisFix : Axis := { ticksVal := .single (.num 10), tickFormatVal := .default }

def baseChart (settings : String → JSVal) : Chart where
  settings := settings
  width := .num 800
  height := .num 600
  xAxisObj := axisFix
  yAxisObj := axisFix
  rightYAxisObj := axisFix
  xAxisLabelVal := none
  yAxisLabelVal := none
  rightYAxisLabelVal := none
  vertGridLines := none
  horizGridLines := none
  xScaleVal := none
  yScaleVal := none
  rightYScaleVal := none
  xUnitsVal := none
  elasticYVal := none

def settingsAllFalse : String → JSVal := fun _ => .bool false

def settingsLogX : String → JSVal := fun name =>
  if name = "graph.x_axis.scale" then .str "log" else .bool false

def settingsLogYAuto : String → JSVal := fun name =>
  if name = "graph.y_axis.scale" then .str "log"
  else if name = "graph.y_axis.auto_range" then .bool true
  else .bool false

def chartFix : Chart := baseChart settingsAllFalse

def chartLogX : Chart := baseChart settingsLogX

def chartLogYAuto : Chart := baseChart settingsLogYAuto

/-- Concrete query-library operations over natural numbers, for witnesses:
a query is a number, `aggregationsWrapped` is empty exactly on `0`. -/
def opsFix : QueryOps ℕ ℕ ℕ ℕ where
  addAggregation := fun q c => 10 * q + c
  aggregationsWrapped := fun q => if q = 0 then [] else [q]
  updateAggregation := fun q i c => 100 * q + 10 * i + c
  setFieldClause := fun a f => a + f

/-! ### Bridging lemmas for the JS arithmetic model -/

theorem JSNum.jdiv_nan_right (a : JSNum) : a.jdiv .nan = .nan := by
  cases a <;> rfl

theorem JSNum.jlt_nan_left (a : JSNum) : JSNum.nan.jlt a = false := by
  cases a <;> rfl

theorem JSNum.jmul_nan_left (a : JSNum) : JSNum.nan.jmul a = .nan := by
  cases a <;> rfl

theorem JSNum.jdiv_num_num (a b : ℚ) (hb : b ≠ 0) :
    (JSNum.num a).jdiv (.num b) = .num (a / b) := by
  simp [JSNum.jdiv, hb]

theorem JSNum.jfloor_num (q : ℚ) : (JSNum.num q).jfloor = .num ⌊q⌋ := rfl

theorem JSNum.jround_num (q : ℚ) : (JSNum.num q).jround = .num ⌊q + 1/2⌋ := rfl

theorem JSNum.jlt_num_num (a b : ℚ) :
    (JSNum.num a).jlt (.num b) = decide (a < b) := rfl

/-- C5: `adjustYAxisTicksIfNeeded` sets the axis tick count to
`floor(axisHeightPixels / 32)` exactly when `axisHeightPixels` divided by
the current tick count is strictly below 32, and otherwise leaves the axis
unchanged; `getNumTicks` returns the first element when the stored ticks
value is an array and the value itself otherwise; on finite heights the
new tick count is the mathematical floor of `height / 32`. -/
theorem adjustYAxisTicksIfNeeded_spec (axis : Axis) (h : JSNum) :
    ((h.jdiv (getNumTicks axis)).jlt (.num 32) = true →
      adjustYAxisTicksIfNeeded axis h = axis.setTicks ((h.jdiv (.num 32)).jfloor)) ∧
    ((h.jdiv (getNumTicks axis)).jlt (.num 32) = false →
      adjustYAxisTicksIfNeeded axis h = axis) ∧
    (∀ q : ℚ, h = .num q → (h.jdiv (.num 32)).jfloor = .num ⌊q / 32⌋) ∧
    (∀ (n : JSNum) (l : List JSNum) (f : TickFormat),
      getNumTicks ⟨.array (n :: l), f⟩ = n ∧ getNumTicks ⟨.single n, f⟩ = n) := by
  refine ⟨?_, ?_, ?_, ?_⟩
  · intro hc
    simp only [adjustYAxisTicksIfNeeded, adjustYAxisTicks, getNumTicks] at hc ⊢
    rw [if_pos hc]
    rfl
  · intro hc
    simp only [adjustYAxisTicksIfNeeded, adjustYAxisTicks, getNumTicks] at hc ⊢
    rw [if_neg (by simp [hc])]
  · rintro q rfl
    rw [JSNum.jdiv_num_num _ _ (by norm_num), JSNum.jfloor_num]
  · intro n l f
    exact ⟨rfl, rfl⟩

theorem adjustYAxisTicksIfNeeded_spec_witness :
    adjustYAxisTicksIfNeeded axisFix (.num 100) =
      axisFix.setTicks (((JSNum.num 100).jdiv (.num 32)).jfloor) :=
  (adjustYAxisTicksIfNeeded_spec axisFix (.num 100)).1
    (by norm_num [getNumTicks, axisFix, getNumTicksVal, JSNum.jdiv, JSNum.jlt])


/-- C8: on an empty x-values list `averageStringLengthOfValues` divides
`0 / 0`, yielding NaN; the derived tick limit is then NaN, the
greater-than comparison against the current tick count is `false`, and
`adjustXAxisTicksIfNeeded` leaves the axis unchanged (the function is
total: no error is raised on this path). -/
theorem adjustXAxisTicksIfNeeded_empty (axis : Axis) (W : JSNum) :
    averageStringLengthOfValues [] = .nan ∧
    (W.jdiv ((averageStringLengthOfValues []).jmul (.num 8))).jfloor = .nan ∧
    (getNumTicks axis).jgt
      ((W.jdiv ((averageStringLengthOfValues []).jmul (.num 8))).jfloor) = false ∧
    adjustXAxisTicksIfNeeded axis W [] = axis := by
  have h1 : averageStringLengthOfValues [] = .nan := rfl
  have h2 : (W.jdiv ((averageStringLengthOfValues []).jmul (.num 8))).jfloor = .nan := by
    rw [h1, JSNum.jmul_nan_left, JSNum.jdiv_nan_right]
    rfl
  have h3 : (getNumTicks axis).jgt
      ((W.jdiv ((averageStringLengthOfValues []).jmul (.num 8))).jfloor) = false := by
    rw [h2]
    exact JSNum.jlt_nan_left _
  refine ⟨h1, h2, h3, ?_⟩
  have h3' : (getNumTicksVal axis.ticksVal).jgt
      ((W.jdiv ((averageStringLengthOfValues []).jmul (.num 8))).jfloor) = false := h3
  simp only [adjustXAxisTicksIfNeeded, adjustXAxisTicks, h3']
  simp

/-- C4: on a non-empty x-values list, the average-length estimate is the
rounded mean length of (at most) the first 100 values, the tick limit is
`floor(chartWidth / (L * 8))`, and `adjustXAxisTicksIfNeeded` lowers the
axis tick count to that limit exactly when the current tick count exceeds
it, leaving the axis unchanged otherwise (tick counts are never
increased). -/
theorem adjustXAxisTicksIfNeeded_spec (axis : Axis) (W : JSNum)
    (xValues : List String) (hne : xValues ≠ []) :
    (averageStringLengthOfValues xValues =
      .num ⌊(((xValues.take 100).foldl (fun acc v => acc + v.length) 0 : ℕ) : ℚ) /
        (((xValues.take 100).length : ℕ) : ℚ) + 1/2⌋) ∧
    ((getNumTicks axis).jgt
        ((W.jdiv ((averageStringLengthOfValues xValues).jmul (.num 8))).jfloor) = true →
      adjustXAxisTicksIfNeeded axis W xValues =
        axis.setTicks ((W.jdiv ((averageStringLengthOfValues xValues).jmul (.num 8))).jfloor)) ∧
    ((getNumTicks axis).jgt
        ((W.jdiv ((averageStringLengthOfValues xValues).jmul (.num 8))).jfloor) = false →
      adjustXAxisTicksIfNeeded axis W xValues = axis) ∧
    (∀ w l : ℚ, W = .num w → averageStringLengthOfValues xValues = .num l → l ≠ 0 →
      (W.jdiv ((averageStringLengthOfValues xValues).jmul (.num 8))).jfloor =
        .num ⌊w / (l * 8)⌋) := by
  refine ⟨?_, ?_, ?_, ?_⟩
  · have hne' : xValues.length ≠ 0 := fun h => hne (List.length_eq_zero.mp h)
    have hlen0 : (xValues.take 100).length ≠ 0 := by
      rw [List.length_take]
      omega
    have hlen : (((xValues.take 100).length : ℕ) : ℚ) ≠ 0 := by
      exact_mod_cast hlen0
    unfold averageStringLengthOfValues
    rw [JSNum.jdiv_num_num _ _ hlen, JSNum.jround_num]
  · intro hc
    simp only [adjustXAxisTicksIfNeeded, adjustXAxisTicks, getNumTicks] at hc ⊢
    rw [if_pos hc]
    rfl
  · intro hc
    simp only [adjustXAxisTicksIfNeeded, adjustXAxisTicks, getNumTicks] at hc ⊢
    rw [if_neg (by simp [hc])]
  · rintro w l rfl hl hlne
    rw [hl, show (JSNum.num l).jmul (.num 8) = .num (l * 8) from rfl,
      JSNum.jdiv_num_num _ _ (by simpa using hlne), JSNum.jfloor_num]

theorem adjustXAxisTicksIfNeeded_spec_witness :
    adjustXAxisTicksIfNeeded axisFix (.num 100) ["a", "toucan", "is", "wow"] =
      axisFix.setTicks
        (((JSNum.num 100).jdiv
          ((averageStringLengthOfValues ["a", "toucan", "is", "wow"]).jmul (.num 8))).jfloor) :=
  (adjustXAxisTicksIfNeeded_spec axisFix (.num 100) ["a", "toucan", "is", "wow"]
      (by simp)).2.1
    (by
      have havg : averageStringLengthOfValues ["a", "toucan", "is", "wow"] = .num 3 := by
        have hsum : ((["a", "toucan", "is", "wow"].take 100).foldl
            (fun acc v => acc + v.length) 0 : ℕ) = 12 := by decide
        have hcnt : ((["a", "toucan", "is", "wow"].take 100).length : ℕ) = 4 := by decide
        unfold averageStringLengthOfValues
        rw [hsum, hcnt, JSNum.jdiv_num_num _ _ (by norm_num), JSNum.jround_num]
        norm_num
      rw [havg, show (JSNum.num 3).jmul (.num 8) = .num 24 from by
          rw [show (JSNum.num 3).jmul (.num 8) = .num (3 * 8) from rfl]; norm_num,
        JSNum.jdiv_num_num _ _ (by norm_num), JSNum.jfloor_num]
      rw [show getNumTicks axisFix = .num 10 from rfl]
      rw [show (⌊(100 : ℚ) / 24⌋ : ℤ) = 4 from by norm_num]
      decide)

/-- C9: `setAggregation` performs exactly one continuation call: it builds
the query extended with the option's aggregation clause, hands it to
`updateQuery` when `option.hasFields()` is truthy and to `onComplete`
otherwise — never both and never neither. -/
theorem setAggregation_spec {Query Clause Agg FieldId : Type}
    (ops : QueryOps Query Clause Agg FieldId) (query : Query)
    (option : AggregationOption Clause) :
    (setAggregation ops query option).length = 1 ∧
    (option.hasFields.truthy = true →
      setAggregation ops query option =
        [.updateQuery (ops.addAggregation query option.clause)]) ∧
    (option.hasFields.truthy = false →
      setAggregation ops query option =
        [.onComplete (ops.addAggregation query option.clause)]) := by
  unfold setAggregation
  by_cases h : option.hasFields.truthy <;> simp [h]

theorem setAggregation_spec_witness :
    setAggregation opsFix 1 ⟨.bool true, 2⟩ =
      [.updateQuery (opsFix.addAggregation 1 2)] :=
  (setAggregation_spec opsFix 1 ⟨.bool true, 2⟩).2.1 rfl

/-- C10: `setAggregationField` throws
`Error("Trying to set the field of a non-existing aggregation")` exactly
when the query has no aggregation at index 0; on that error no
continuation is invoked (the call list is only produced on the non-error
path), and otherwise it invokes `onComplete` once with the query whose
aggregation 0 has its field set to the given field's id. -/
theorem setAggregationField_spec {Query Clause Agg FieldId : Type}
    (ops : QueryOps Query Clause Agg FieldId) (query : Query)
    (field : JSField FieldId) :
    (ops.aggregationsWrapped query = [] →
      setAggregationField ops query field =
        .error (.errorObj "Trying to set the field of a non-existing aggregation")) ∧
    (∀ a rest, ops.aggregationsWrapped query = a :: rest →
      setAggregationField ops query field =
        .ok [.onComplete (ops.updateAggregation query 0
          (ops.setFieldClause a field.id))]) ∧
    ((∃ e, setAggregationField ops query field = .error e) ↔
      ops.aggregationsWrapped query = []) := by
  refine ⟨?_, ?_, ?_⟩
  · intro h
    unfold setAggregationField
    rw [h]
    rfl
  · intro a rest h
    unfold setAggregationField
    rw [h]
    rfl
  · constructor
    · rintro ⟨e, he⟩
      unfold setAggregationField at he
      cases h : ops.aggregationsWrapped query with
      | nil => rfl
      | cons a rest =>
        rw [h] at he
        simp at he
    · intro h
      refine ⟨.errorObj "Trying to set the field of a non-existing aggregation", ?_⟩
      unfold setAggregationField
      rw [h]
      rfl

theorem setAggregationField_spec_witness :
    setAggregationField opsFix 0 ⟨5⟩ =
      .error (.errorObj "Trying to set the field of a non-existing aggregation") ∧
    setAggregationField opsFix 7 ⟨5⟩ =
      .ok [.onComplete (opsFix.updateAggregation 7 (0 : ℕ)
        (opsFix.setFieldClause 7 (5 : ℕ)))] :=
  ⟨(setAggregationField_spec opsFix 0 ⟨5⟩).1 rfl,
   (setAggregationField_spec opsFix 7 ⟨5⟩).2.1 7 [] (by norm_num [opsFix])⟩

/-- Membership characterisation of the timeseries scale's tick list. -/
theorem mem_timeseriesTicks (ti : TimeInterval) (u anchor d0 d1 x : ℚ) :
    x ∈ timeseriesTicks ti u anchor (d0, d1) ↔
      ∃ k : ℤ, ⌈(d0 - anchor) / (ti.count * u)⌉ ≤ k ∧
        k ≤ ⌊(d1 - anchor) / (ti.count * u)⌋ ∧
        x = anchor + (k : ℚ) * (ti.count * u) := by
  unfold timeseriesTicks
  set step := ti.count * u with hstepdef
  set sIdx := ⌈(d0 - anchor) / step⌉ with hsdef
  set eIdx := ⌊(d1 - anchor) / step⌋ with hedef
  by_cases hc : sIdx > eIdx
  · rw [if_pos hc]
    simp only [List.not_mem_nil, false_iff]
    rintro ⟨k, hk1, hk2, -⟩
    omega
  · rw [if_neg hc]
    push_neg at hc
    rw [List.mem_map]
    constructor
    · rintro ⟨i, hi, rfl⟩
      rw [List.mem_range] at hi
      refine ⟨sIdx + (i : ℤ), by omega, by omega, ?_⟩
      push_cast
      ring
    · rintro ⟨k, hk1, hk2, rfl⟩
      refine ⟨(k - sIdx).toNat, ?_, ?_⟩
      · rw [List.mem_range]
        omega
      · have h3 : (((k - sIdx).toNat : ℤ) : ℚ) = (k : ℚ) - (sIdx : ℚ) := by
          rw [Int.toNat_of_nonneg (by omega : (0 : ℤ) ≤ k - sIdx)]
          push_cast
          ring
        have h2 : (((k - sIdx).toNat : ℕ) : ℚ) = (k : ℚ) - (sIdx : ℚ) := by
          exact_mod_cast h3
        rw [h2]
        ring

/-- C6: the `ticks()` method of the scale stored by
`applyChartTimeseriesXAxis` returns exactly the instants
`anchor + k * tickInterval.count` units of `tickInterval.interval` for the
consecutive integers `k` between `ceil(every.count(domain[0]))` and
`floor(every.count(domain[1]))`, the empty list when the start index
exceeds the end index, and consequently every returned tick lies within
the scale's current domain. -/
theorem timeseriesScaleTicks_spec (env : Env) (tz : Option String)
    (ti : TimeInterval) (d0 d1 : ℚ)
    (hstep : 0 < ti.count * env.unitLen ti.interval) :
    XScaleVal.ticksOf env (.tseries tz ti (d0, d1)) =
      some (timeseriesTicks ti (env.unitLen ti.interval)
        (env.anchorOf tz ti.interval) (d0, d1)) ∧
    (∀ x : ℚ,
      x ∈ timeseriesTicks ti (env.unitLen ti.interval)
          (env.anchorOf tz ti.interval) (d0, d1) ↔
        ∃ k : ℤ,
          ⌈(d0 - env.anchorOf tz ti.interval) / (ti.count * env.unitLen ti.interval)⌉ ≤ k ∧
          k ≤ ⌊(d1 - env.anchorOf tz ti.interval) / (ti.count * env.unitLen ti.interval)⌋ ∧
          x = env.anchorOf tz ti.interval + (k : ℚ) * (ti.count * env.unitLen ti.interval)) ∧
    (⌈(d0 - env.anchorOf tz ti.interval) / (ti.count * env.unitLen ti.interval)⌉ >
        ⌊(d1 - env.anchorOf tz ti.interval) / (ti.count * env.unitLen ti.interval)⌋ →
      timeseriesTicks ti (env.unitLen ti.interval)
        (env.anchorOf tz ti.interval) (d0, d1) = []) ∧
    (∀ x ∈ timeseriesTicks ti (env.unitLen ti.interval)
        (env.anchorOf tz ti.interval) (d0, d1), d0 ≤ x ∧ x ≤ d1) := by
  refine ⟨rfl, mem_timeseriesTicks ti _ _ d0 d1, ?_, ?_⟩
  · intro hgt
    unfold timeseriesTicks
    rw [if_pos hgt]
  · intro x hx
    obtain ⟨k, hk1, hk2, rfl⟩ := (mem_timeseriesTicks ti _ _ d0 d1 x).mp hx
    set a := env.anchorOf tz ti.interval with ha
    set step := ti.count * env.unitLen ti.interval with hs
    constructor
    · have h1 : (d0 - a) / step ≤ (k : ℚ) :=
        le_trans (Int.le_ceil _) (by exact_mod_cast hk1)
      have h2 : d0 - a ≤ (k : ℚ) * step := (div_le_iff hstep).mp h1
      linarith
    · have h1 : (k : ℚ) ≤ (d1 - a) / step :=
        le_trans (by exact_mod_cast hk2) (Int.floor_le _)
      have h2 : (k : ℚ) * step ≤ d1 - a := (le_div_iff hstep).mp h1
      linarith

theorem timeseriesScaleTicks_spec_witness :
    XScaleVal.ticksOf envFix (.tseries none ⟨"day", 1⟩ (0, 86400000)) =
      some (timeseriesTicks ⟨"day", 1⟩ (envFix.unitLen "day")
        (envFix.anchorOf none "day") (0, 86400000)) :=
  (timeseriesScaleTicks_spec envFix none ⟨"day", 1⟩ 0 86400000
    (by norm_num [envFix])).1

theorem quantScale_log (settings : String → JSVal) (xd : JSNum × JSNum)
    (h : settings "graph.x_axis.scale" = .str "log") :
    quantScale settings xd =
      if logCrossCheckFails xd.1 xd.2 then
        .error (.thrownString "X-axis must not cross 0 when using log scale.")
      else .ok { kind := .logBaseE, domain := d3DefaultDomain } := by
  unfold quantScale
  rw [h]
  simp

theorem quantScale_error (settings : String → JSVal) (xd : JSNum × JSNum)
    (e : JSError) (h : quantScale settings xd = .error e) :
    e = .thrownString "X-axis must not cross 0 when using log scale." := by
  unfold quantScale at h
  split at h
  · simp at h
  · split at h
    · split at h
      · injection h with h2
        exact h2.symm
      · simp at h
    · simp at h

theorem quantScale_ok (settings : String → JSVal) (xd : JSNum × JSNum)
    (h : logCrossCheckFails xd.1 xd.2 = false) :
    ∃ s, quantScale settings xd = .ok s := by
  unfold quantScale
  split
  · exact ⟨_, rfl⟩
  · split
    · rw [h]
      exact ⟨_, rfl⟩
    · exact ⟨_, rfl⟩

/-- C1 (amended): provided some series has nonempty data — otherwise the
function crashes with a `TypeError` before any validation — with the
x-axis scale setting `"log"`, `applyChartQuantitativeXAxis` throws the
string `"X-axis must not cross 0 when using log scale."` exactly when the
two `xDomain` endpoints do not lie strictly on one side of zero (so an
endpoint equal to 0 throws); with the y-axis scale setting `"log"`,
`applyChartYAxis` throws `"Y-axis must not cross 0 when using log scale."`
under the same two-endpoint condition, applied to `yExtent` when
`auto_range` is truthy and to the (ToNumber-coerced) `min`/`max` settings
when it is falsy; when the condition is satisfied no error is raised. -/
theorem logScale_validation (env : Env) (chart : Chart)
    (series : List SingleSeries) (xValues : List String)
    (xDomain : JSNum × JSNum) (xInterval : JSNum) (yExtent : JSNum × JSNum)
    (axisName : String) (s₀ : SingleSeries)
    (hfind : series.find? (fun s => ! env.datasetContainsNoResults s.data) = some s₀) :
    (chart.settings "graph.x_axis.scale" = .str "log" →
      (applyChartQuantitativeXAxis env chart series xValues xDomain xInterval =
          .error (.thrownString "X-axis must not cross 0 when using log scale.") ↔
        logCrossCheckFails xDomain.1 xDomain.2 = true)) ∧
    (logCrossCheckFails xDomain.1 xDomain.2 = false →
      exceptOk (applyChartQuantitativeXAxis env chart series xValues xDomain xInterval) = true) ∧
    (chart.settings "graph.y_axis.scale" = .str "log" →
      ((chart.settings "graph.y_axis.auto_range").truthy = true →
        (applyChartYAxis env chart series yExtent axisName =
            .error (.thrownString "Y-axis must not cross 0 when using log scale.") ↔
          logCrossCheckFails yExtent.1 yExtent.2 = true)) ∧
      ((chart.settings "graph.y_axis.auto_range").truthy = false →
        (applyChartYAxis env chart series yExtent axisName =
            .error (.thrownString "Y-axis must not cross 0 when using log scale.") ↔
          logCrossCheckFails ((chart.settings "graph.y_axis.min").toNumber env)
            ((chart.settings "graph.y_axis.max").toNumber env) = true))) ∧
    ((chart.settings "graph.y_axis.auto_range").truthy = true →
      logCrossCheckFails yExtent.1 yExtent.2 = false →
      exceptOk (applyChartYAxis env chart series yExtent axisName) = true) ∧
    ((chart.settings "graph.y_axis.auto_range").truthy = false →
      logCrossCheckFails ((chart.settings "graph.y_axis.min").toNumber env)
        ((chart.settings "graph.y_axis.max").toNumber env) = false →
      exceptOk (applyChartYAxis env chart series yExtent axisName) = true) := by
  refine ⟨?_, ?_, ?_, ?_, ?_⟩
  · intro hlog
    simp only [applyChartQuantitativeXAxis, hfind]
    rw [quantScale_log chart.settings xDomain hlog]
    by_cases hf : logCrossCheckFails xDomain.1 xDomain.2
    · rw [if_pos hf]
      simp [hf]
    · rw [if_neg hf]
      simp only [Bool.not_eq_true] at hf
      simp [hf]
  · intro hok
    simp only [applyChartQuantitativeXAxis, hfind]
    obtain ⟨s, hs⟩ := quantScale_ok chart.settings xDomain hok
    rw [hs]
    rfl
  · intro hylog
    constructor
    · intro htr
      simp only [applyChartYAxis, htr, hylog]
      simp only [if_true]
      by_cases hf : logCrossCheckFails yExtent.1 yExtent.2
      · simp [hf]
      · simp only [Bool.not_eq_true] at hf
        simp [hf]
    · intro htr
      simp only [applyChartYAxis, htr, hylog]
      by_cases hf : logCrossCheckFails ((chart.settings "graph.y_axis.min").toNumber env)
          ((chart.settings "graph.y_axis.max").toNumber env)
      · simp [hf]
      · simp only [Bool.not_eq_true] at hf
        simp [hf]
  · intro htr hf
    simp only [applyChartYAxis, htr]
    by_cases hylog : chart.settings "graph.y_axis.scale" = .str "log"
    · simp [hylog, hf, exceptOk]
    · simp [hylog, exceptOk]
  · intro htr hf
    simp only [applyChartYAxis, htr]
    simp [hf, exceptOk]

theorem logScale_validation_witness :
    applyChartQuantitativeXAxis envFix chartLogX seriesFix []
        (.num (-1), .num 0) (.num 1) =
      .error (.thrownString "X-axis must not cross 0 when using log scale.") :=
  ((logScale_validation envFix chartLogX seriesFix [] (.num (-1), .num 0)
      (.num 1) (.num 1, .num 2) "left" ⟨seriesDataFix⟩ rfl).1 rfl).mpr (by decide)

set_option maxHeartbeats 1600000 in
/-- C2 (amended): whenever some series has nonempty data — without that,
the three x-axis functions crash with a `TypeError` while reading
`firstSeries.data` — every abnormal termination of the four
axis-application functions is a throw from one of the two log-scale
validations, and the thrown value is a string: `applyChartTimeseriesXAxis`
and `applyChartOrdinalXAxis` never throw, and the only errors of
`applyChartQuantitativeXAxis` and `applyChartYAxis` are the two validation
strings. -/
theorem axisFunctions_error_semantics (env : Env) (chart : Chart)
    (series : List SingleSeries) (xValues : List String)
    (xDomainT : ℚ × ℚ) (xIntervalT : TimeInterval)
    (xDomainQ : JSNum × JSNum) (xIntervalQ : JSNum)
    (yExtent : JSNum × JSNum) (axisName : String) :
    ((series.find? (fun s => ! env.datasetContainsNoResults s.data)).isSome = true →
      (∀ e, applyChartTimeseriesXAxis env chart series xValues xDomainT xIntervalT ≠
        .error e) ∧
      (∀ e, applyChartQuantitativeXAxis env chart series xValues xDomainQ xIntervalQ =
          .error e →
        e = .thrownString "X-axis must not cross 0 when using log scale.") ∧
      (∀ e, applyChartOrdinalXAxis env chart series xValues ≠ .error e)) ∧
    (∀ e, applyChartYAxis env chart series yExtent axisName = .error e →
      e = .thrownString "Y-axis must not cross 0 when using log scale.") := by
  constructor
  · intro hsome
    obtain ⟨s₀, hfind⟩ := Option.isSome_iff_exists.mp hsome
    refine ⟨?_, ?_, ?_⟩
    · intro e h
      simp only [applyChartTimeseriesXAxis, hfind] at h
      exact Except.noConfusion h
    · intro e h
      simp only [applyChartQuantitativeXAxis, hfind] at h
      cases hq : quantScale chart.settings xDomainQ with
      | error e2 =>
        rw [hq] at h
        have h' : Except.error e2 = Except.error e := h
        injection h' with h2
        rw [← h2]
        exact quantScale_error chart.settings xDomainQ e2 hq
      | ok sc =>
        rw [hq] at h
        exact Except.noConfusion h
    · intro e h
      simp only [applyChartOrdinalXAxis, hfind] at h
      exact Except.noConfusion h
  · intro e h
    simp only [applyChartYAxis] at h
    split at h
    · split at h
      · exact Except.noConfusion h
      · split at h
        · injection h with h2
          exact h2.symm
        · exact Except.noConfusion h
    · split at h
      · injection h with h2
        exact h2.symm
      · exact Except.noConfusion h

theorem axisFunctions_error_semantics_cex :
    applyChartQuantitativeXAxis envFix chartFix [] [] (.num 0, .num 1) (.num 1) =
      .error undefinedDataError ∧
    (∀ s, undefinedDataError ≠ .thrownString s) := by
  constructor
  · rfl
  · intro s
    simp [undefinedDataError]

theorem axisFunctions_error_semantics_witness :
    applyChartTimeseriesXAxis envFix chartFix seriesFix [] (0, 0) ⟨"day", 1⟩ ≠
      .error (.thrownString "boom") :=
  ((axisFunctions_error_semantics envFix chartFix seriesFix [] (0, 0)
      ⟨"day", 1⟩ (.num 0, .num 0) (.num 0) (.num 1, .num 2) "left").1 rfl).1
    (.thrownString "boom")

/-- C3 (amended): whenever the call returns normally,
`applyChartQuantitativeXAxis` sets the chart's x-scale domain to
`[xDomain[0] - xInterval * 0.75, xDomain[1] + xInterval * 0.75]` and
`applyChartTimeseriesXAxis` sets it to `xDomain[0]` minus and `xDomain[1]`
plus `0.75 * xInterval.count` units of `xInterval.interval`; the padding
is applied regardless of the `axis_enabled` and `labels_enabled` settings
(the statement quantifies over every settings bag).  When the quantitative
log-scale validation throws (or no nonempty series exists) no scale is
stored at all, so the padding is not unconditional. -/
theorem domainPadding_spec (env : Env) (chart : Chart)
    (series : List SingleSeries) (xValues : List String)
    (xDomainQ : JSNum × JSNum) (xIntervalQ : JSNum)
    (xDomainT : ℚ × ℚ) (xIntervalT : TimeInterval) :
    (exceptOk (applyChartQuantitativeXAxis env chart series xValues xDomainQ xIntervalQ) =
        true →
      resultXScaleDomain
          (applyChartQuantitativeXAxis env chart series xValues xDomainQ xIntervalQ) =
        some [.num (xDomainQ.1.jsub (xIntervalQ.jmul (.num 0.75))),
              .num (xDomainQ.2.jadd (xIntervalQ.jmul (.num 0.75)))]) ∧
    (exceptOk (applyChartTimeseriesXAxis env chart series xValues xDomainT xIntervalT) =
        true →
      resultXScaleDomain
          (applyChartTimeseriesXAxis env chart series xValues xDomainT xIntervalT) =
        some [.num (.num (xDomainT.1 -
                xIntervalT.count * 0.75 * env.unitLen xIntervalT.interval)),
              .num (.num (xDomainT.2 +
                xIntervalT.count * 0.75 * env.unitLen xIntervalT.interval))]) := by
  constructor
  · intro hok
    cases hf : series.find? (fun s => ! env.datasetContainsNoResults s.data) with
    | none =>
      simp only [applyChartQuantitativeXAxis, hf] at hok
      simp [exceptOk] at hok
    | some s₀ =>
      simp only [applyChartQuantitativeXAxis, hf] at hok ⊢
      cases hq : quantScale chart.settings xDomainQ with
      | error e =>
        rw [hq] at hok
        simp [exceptOk] at hok
      | ok sc =>
        rfl
  · intro hok
    cases hf : series.find? (fun s => ! env.datasetContainsNoResults s.data) with
    | none =>
      simp only [applyChartTimeseriesXAxis, hf] at hok
      simp [exceptOk] at hok
    | some s₀ =>
      simp only [applyChartTimeseriesXAxis, hf]
      rfl

theorem domainPadding_spec_witness :
    resultXScaleDomain (applyChartQuantitativeXAxis envFix chartFix seriesFix []
        (.num 0, .num 1) (.num 1)) =
      some [.num ((JSNum.num 0).jsub ((JSNum.num 1).jmul (.num 0.75))),
            .num ((JSNum.num 1).jadd ((JSNum.num 1).jmul (.num 0.75)))] :=
  (domainPadding_spec envFix chartFix seriesFix [] (.num 0, .num 1) (.num 1)
      (0, 0) ⟨"day", 1⟩).1 rfl

theorem domainPadding_cex :
    applyChartQuantitativeXAxis envFix chartLogX seriesFix [] (.num 0, .num 1) (.num 1) =
      .error (.thrownString "X-axis must not cross 0 when using log scale.") ∧
    resultXScaleDomain (applyChartQuantitativeXAxis envFix chartLogX seriesFix []
        (.num 0, .num 1) (.num 1)) = none :=
  ⟨rfl, rfl⟩

/-! ### Frame lemmas: the chart-mutating operations touch only axis
configuration, never the settings bag or the chart dimensions -/

theorem Chart.modifyXAxis_settings (c : Chart) (f : Axis → Axis) :
    (c.modifyXAxis f).settings = c.settings := rfl

theorem Chart.setYScale_settings (c : Chart) (b : Bool) (s : DScale) :
    (c.setYScale b s).settings = c.settings := by
  unfold Chart.setYScale
  cases b <;> rfl

theorem Chart.setYScale_width (c : Chart) (b : Bool) (s : DScale) :
    (c.setYScale b s).width = c.width := by
  unfold Chart.setYScale
  cases b <;> rfl

theorem Chart.setYScale_height (c : Chart) (b : Bool) (s : DScale) :
    (c.setYScale b s).height = c.height := by
  unfold Chart.setYScale
  cases b <;> rfl

theorem quantChartPart_frame (env : Env) (settings : String → JSVal)
    (chart : Chart) (d : Column) (xs : List String) :
    (quantChartPart env settings chart d xs).settings = chart.settings ∧
    (quantChartPart env settings chart d xs).width = chart.width ∧
    (quantChartPart env settings chart d xs).height = chart.height := by
  unfold quantChartPart
  split_ifs <;> exact ⟨rfl, rfl, rfl⟩

theorem ordChartPart_frame (env : Env) (settings : String → JSVal)
    (chart : Chart) (d : Column) (xs : List String) :
    (ordChartPart env settings chart d xs).settings = chart.settings ∧
    (ordChartPart env settings chart d xs).width = chart.width ∧
    (ordChartPart env settings chart d xs).height = chart.height := by
  unfold ordChartPart
  split_ifs <;> exact ⟨rfl, rfl, rfl⟩

theorem tsChartPart_frame (env : Env) (settings : String → JSVal)
    (chart : Chart) (d : Column) (xd : ℚ × ℚ) (di : TimeInterval) :
    (tsChartPart env settings chart d xd di).1.settings = chart.settings ∧
    (tsChartPart env settings chart d xd di).1.width = chart.width ∧
    (tsChartPart env settings chart d xd di).1.height = chart.height := by
  unfold tsChartPart
  split_ifs <;> exact ⟨rfl, rfl, rfl⟩

theorem yChartPart_frame (env : Env) (settings : String → JSVal)
    (chart : Chart) (series : List SingleSeries) (isRight : Bool) :
    (yChartPart env settings chart series isRight).settings = chart.settings ∧
    (yChartPart env settings chart series isRight).width = chart.width ∧
    (yChartPart env settings chart series isRight).height = chart.height := by
  cases isRight <;>
    · unfold yChartPart
      by_cases h1 : (settings "graph.y_axis.labels_enabled").truthy <;>
      by_cases h2 : (settings "graph.y_axis.title_text").truthy <;>
      by_cases h3 : (settings "graph.y_axis.axis_enabled").truthy <;>
      by_cases h4 : settings "stackable.stack_type" = JSVal.str "normalized" <;>
      by_cases h5 :
          (jsUniq (series.map (fun s => env.getFriendlyName s.data.col1))).length = 1 <;>
        simp [h1, h2, h3, h4, h5, Chart.modifyYAxis, Chart.setYAxisLabel]

theorem applyChartQuantitativeXAxis_frame (env : Env) (chart : Chart)
    (series : List SingleSeries) (xValues : List String)
    (xDomain : JSNum × JSNum) (xInterval : JSNum) (c : Chart)
    (xd : JSNum × JSNum)
    (h : applyChartQuantitativeXAxis env chart series xValues xDomain xInterval =
      .ok (c, xd)) :
    c.settings = chart.settings ∧ c.width = chart.width ∧
    c.height = chart.height ∧ xd = xDomain := by
  cases hf : series.find? (fun s => ! env.datasetContainsNoResults s.data) with
  | none =>
    simp only [applyChartQuantitativeXAxis, hf] at h
    exact Except.noConfusion h
  | some s₀ =>
    simp only [applyChartQuantitativeXAxis, hf] at h
    cases hq : quantScale chart.settings xDomain with
    | error e =>
      rw [hq] at h
      exact Except.noConfusion h
    | ok sc =>
      rw [hq] at h
      injection h with h2
      injection h2 with h3 h4
      subst h3
      subst h4
      exact ⟨(quantChartPart_frame env chart.settings chart s₀.data.col0 xValues).1,
        (quantChartPart_frame env chart.settings chart s₀.data.col0 xValues).2.1,
        (quantChartPart_frame env chart.settings chart s₀.data.col0 xValues).2.2, rfl⟩

theorem applyChartTimeseriesXAxis_frame (env : Env) (chart : Chart)
    (series : List SingleSeries) (xValues : List String) (xDomain : ℚ × ℚ)
    (xInterval : TimeInterval) (c : Chart) (xd : ℚ × ℚ)
    (h : applyChartTimeseriesXAxis env chart series xValues xDomain xInterval =
      .ok (c, xd)) :
    c.settings = chart.settings ∧ c.width = chart.width ∧
    c.height = chart.height ∧
    xd = (xDomain.1 - xInterval.count * 0.75 * env.unitLen xInterval.interval,
          xDomain.2 + xInterval.count * 0.75 * env.unitLen xInterval.interval) := by
  cases hf : series.find? (fun s => ! env.datasetContainsNoResults s.data) with
  | none =>
    simp only [applyChartTimeseriesXAxis, hf] at h
    exact Except.noConfusion h
  | some s₀ =>
    simp only [applyChartTimeseriesXAxis, hf] at h
    injection h with h2
    injection h2 with h3 h4
    subst h3
    subst h4
    exact ⟨(tsChartPart_frame env chart.settings chart s₀.data.col0 xDomain xInterval).1,
      (tsChartPart_frame env chart.settings chart s₀.data.col0 xDomain xInterval).2.1,
      (tsChartPart_frame env chart.settings chart s₀.data.col0 xDomain xInterval).2.2, rfl⟩

theorem applyChartOrdinalXAxis_frame (env : Env) (chart : Chart)
    (series : List SingleSeries) (xValues : List String) (c : Chart)
    (h : applyChartOrdinalXAxis env chart series xValues = .ok c) :
    c.settings = chart.settings ∧ c.width = chart.width ∧
    c.height = chart.height := by
  cases hf : series.find? (fun s => ! env.datasetContainsNoResults s.data) with
  | none =>
    simp only [applyChartOrdinalXAxis, hf] at h
    exact Except.noConfusion h
  | some s₀ =>
    simp only [applyChartOrdinalXAxis, hf] at h
    injection h with h2
    subst h2
    exact ⟨(ordChartPart_frame env chart.settings chart s₀.data.col0 xValues).1,
      (ordChartPart_frame env chart.settings chart s₀.data.col0 xValues).2.1,
      (ordChartPart_frame env chart.settings chart s₀.data.col0 xValues).2.2⟩

theorem applyChartYAxis_frame (env : Env) (chart : Chart)
    (series : List SingleSeries) (yExtent : JSNum × JSNum) (axisName : String)
    (c : Chart) (h : applyChartYAxis env chart series yExtent axisName = .ok c) :
    c.settings = chart.settings ∧ c.width = chart.width ∧
    c.height = chart.height := by
  have hy := yChartPart_frame env chart.settings chart series (axisName == "right")
  simp only [applyChartYAxis] at h
  split at h
  · split at h
    · injection h with h2
      subst h2
      refine ⟨?_, ?_, ?_⟩
      · rw [Chart.setYScale_settings]
        exact hy.1
      · rw [Chart.setYScale_width]
        exact hy.2.1
      · rw [Chart.setYScale_height]
        exact hy.2.2
    · split at h
      · exact Except.noConfusion h
      · injection h with h2
        subst h2
        refine ⟨?_, ?_, ?_⟩
        · rw [Chart.setYScale_settings]
          exact hy.1
        · rw [Chart.setYScale_width]
          exact hy.2.1
        · rw [Chart.setYScale_height]
          exact hy.2.2
  · split at h
    · exact Except.noConfusion h
    · injection h with h2
      subst h2
      refine ⟨?_, ?_, ?_⟩
      · rw [Chart.setYScale_settings]
        exact hy.1
      · rw [Chart.setYScale_width]
        exact hy.2.1
      · rw [Chart.setYScale_height]
        exact hy.2.2

/-- C7 (amended): on every normal return the axis-application functions
have mutated only the chart handle's axis configuration — the settings bag
and the chart dimensions read through the result are those of the input
chart — and the callers' array arguments are untouched with one exception:
`applyChartQuantitativeXAxis` returns the caller's `xDomain` unchanged,
but `applyChartTimeseriesXAxis` overwrites `xDomain[0]` and `xDomain[1]`
with the padded endpoints (`series`, `xValues` and `yExtent` are only ever
read, which the embedding reflects by never returning them). -/
theorem frame_spec (env : Env) (chart : Chart) (series : List SingleSeries)
    (xValues : List String) (xDomainT : ℚ × ℚ) (xIntervalT : TimeInterval)
    (xDomainQ : JSNum × JSNum) (xIntervalQ : JSNum) (yExtent : JSNum × JSNum)
    (axisName : String) (name : String) :
    (exceptOk (applyChartTimeseriesXAxis env chart series xValues xDomainT xIntervalT) =
        true →
      resultSetting (applyChartTimeseriesXAxis env chart series xValues xDomainT
          xIntervalT) name = some (chart.settings name) ∧
      resultDims (applyChartTimeseriesXAxis env chart series xValues xDomainT
          xIntervalT) = some (chart.width, chart.height) ∧
      okArray (applyChartTimeseriesXAxis env chart series xValues xDomainT
          xIntervalT) =
        some (xDomainT.1 - xIntervalT.count * 0.75 * env.unitLen xIntervalT.interval,
              xDomainT.2 + xIntervalT.count * 0.75 * env.unitLen xIntervalT.interval)) ∧
    (exceptOk (applyChartQuantitativeXAxis env chart series xValues xDomainQ xIntervalQ) =
        true →
      resultSetting (applyChartQuantitativeXAxis env chart series xValues xDomainQ
          xIntervalQ) name = some (chart.settings name) ∧
      resultDims (applyChartQuantitativeXAxis env chart series xValues xDomainQ
          xIntervalQ) = some (chart.width, chart.height) ∧
      okArray (applyChartQuantitativeXAxis env chart series xValues xDomainQ
          xIntervalQ) = some xDomainQ) ∧
    (exceptOk (applyChartOrdinalXAxis env chart series xValues) = true →
      resultSettingC (applyChartOrdinalXAxis env chart series xValues) name =
        some (chart.settings name) ∧
      resultDimsC (applyChartOrdinalXAxis env chart series xValues) =
        some (chart.width, chart.height)) ∧
    (exceptOk (applyChartYAxis env chart series yExtent axisName) = true →
      resultSettingC (applyChartYAxis env chart series yExtent axisName) name =
        some (chart.settings name) ∧
      resultDimsC (applyChartYAxis env chart series yExtent axisName) =
        some (chart.width, chart.height)) := by
  refine ⟨?_, ?_, ?_, ?_⟩
  · intro hok
    cases hr : applyChartTimeseriesXAxis env chart series xValues xDomainT xIntervalT with
    | error e =>
      rw [hr] at hok
      simp [exceptOk] at hok
    | ok p =>
      obtain ⟨c, xd⟩ := p
      obtain ⟨hs, hw, hh, hxd⟩ :=
        applyChartTimeseriesXAxis_frame env chart series xValues xDomainT xIntervalT c xd hr
      simp [resultSetting, resultDims, okArray, okChartP, hs, hw, hh, hxd]
  · intro hok
    cases hr : applyChartQuantitativeXAxis env chart series xValues xDomainQ xIntervalQ with
    | error e =>
      rw [hr] at hok
      simp [exceptOk] at hok
    | ok p =>
      obtain ⟨c, xd⟩ := p
      obtain ⟨hs, hw, hh, hxd⟩ :=
        applyChartQuantitativeXAxis_frame env chart series xValues xDomainQ xIntervalQ c xd hr
      simp [resultSetting, resultDims, okArray, okChartP, hs, hw, hh, hxd]
  · intro hok
    cases hr : applyChartOrdinalXAxis env chart series xValues with
    | error e =>
      rw [hr] at hok
      simp [exceptOk] at hok
    | ok c =>
      obtain ⟨hs, hw, hh⟩ :=
        applyChartOrdinalXAxis_frame env chart series xValues c hr
      simp [resultSettingC, resultDimsC, okChart, hs, hw, hh]
  · intro hok
    cases hr : applyChartYAxis env chart series yExtent axisName with
    | error e =>
      rw [hr] at hok
      simp [exceptOk] at hok
    | ok c =>
      obtain ⟨hs, hw, hh⟩ :=
        applyChartYAxis_frame env chart series yExtent axisName c hr
      simp [resultSettingC, resultDimsC, okChart, hs, hw, hh]

theorem frame_spec_witness :
    resultSettingC (applyChartYAxis envFix chartFix seriesFix (.num 1, .num 2) "left")
        "graph.y_axis.scale" = some (chartFix.settings "graph.y_axis.scale") :=
  ((frame_spec envFix chartFix seriesFix [] (0, 0) ⟨"day", 1⟩ (.num 0, .num 1)
      (.num 1) (.num 1, .num 2) "left" "graph.y_axis.scale").2.2.2 rfl).1

theorem frame_cex :
    okArray (applyChartTimeseriesXAxis envFix chartFix seriesFix []
        ((0 : ℚ), (0 : ℚ)) ⟨"day", 1⟩) = some (-64800000, 64800000) ∧
    ((-64800000 : ℚ), (64800000 : ℚ)) ≠ ((0 : ℚ), (0 : ℚ)) := by
  constructor
  · have hf : seriesFix.find? (fun s => ! envFix.datasetContainsNoResults s.data) =
        some ⟨seriesDataFix⟩ := rfl
    simp only [applyChartTimeseriesXAxis, hf, okArray]
    norm_num [envFix]
  · simp [Prod.ext_iff]

theorem logScale_validation_cex :
    applyChartQuantitativeXAxis envFix chartLogX [] [] (.num 0, .num 1) (.num 1) =
      .error undefinedDataError ∧
    undefinedDataError ≠
      .thrownString "X-axis must not cross 0 when using log scale." ∧
    chartLogX.settings "graph.x_axis.scale" = .str "log" ∧
    logCrossCheckFails (JSNum.num 0) (.num 1) = true :=
  ⟨rfl, by decide, by decide, by decide⟩
